import Mathlib

/-!
Verification of the EcoAudit utility-usage scoring and classification engine.

The definitions below are a shallow embedding of the Python source:
* `EcoAI._get_usage_status` and `EcoAI.assess_usage_with_context`
  from `simple_ai_models.py` (thresholds table in `EcoAI.__init__`);
* the per-utility efficiency tier tables, `validate_usage_values`,
  `calculate_ai_points` and `assess_usage_with_ai` from `app.py`.

Numbers are modelled as exact rationals.  Python's `round(x, n)` is modelled
as `round (x * 10^n) / 10^n` with Mathlib's `round`; the two agree except on
exact half-way values (Python floats use banker's rounding there), and no
value asserted in this development sits on a half-way point.

`assess_usage_with_ai` is embedded along its untrained path: `eco_ai` is
created at import time with `_is_trained = False`, so the
`eco_ai.is_trained and len(data_for_analysis) > 0` branch that would
overwrite `efficiency_score` from historical patterns is not taken; the
historical data therefore does not influence any value modelled here.
-/

/-- Python `round(x, 2)` on exact rationals (ties round up, see header). -/
def round2 (q : ℚ) : ℚ := (round (q * 100) : ℚ) / 100

/-- Python `round(x, 1)` on exact rationals (ties round up, see header). -/
def round1 (q : ℚ) : ℚ := (round (q * 10) : ℚ) / 10

/-- One utility's entry of `EcoAI.efficiency_thresholds`. -/
structure Thresholds where
  low : ℚ
  moderate : ℚ
  high : ℚ
deriving DecidableEq

/-- The `efficiency_thresholds` dict set in `EcoAI.__init__`
(`simple_ai_models.py`): water 50/100/150, electricity 300/600/900,
gas 50/100/150. -/
def efficiency_thresholds (utility : String) : Thresholds :=
  if utility = "water" then ⟨50, 100, 150⟩
  else if utility = "electricity" then ⟨300, 600, 900⟩
  else ⟨50, 100, 150⟩

/-- `EcoAI._get_usage_status` (`simple_ai_models.py`): tier lookup with
inclusive upper bounds, returning a lowercase label. -/
def get_usage_status (utility : String) (value : ℚ) : String :=
  let t := efficiency_thresholds utility
  if value ≤ t.low then "excellent"
  else if value ≤ t.moderate then "good"
  else if value ≤ t.high then "moderate"
  else "high"

/-- `EcoAI.assess_usage_with_context` (`simple_ai_models.py`): returns the
three per-utility status labels from `analyze_usage`, which computes them
with `_get_usage_status`.  The `user_context` and `data_for_analysis`
arguments do not influence the returned tuple.  -/
def assess_usage_with_context (water_gallons electricity_kwh gas_cubic_m : ℚ) :
    String × String × String :=
  (get_usage_status "water" water_gallons,
   get_usage_status "electricity" electricity_kwh,
   get_usage_status "gas" gas_cubic_m)

/-- Water efficiency tier table of `assess_usage_with_ai` (`app.py`). -/
def water_efficiency (water_gallons : ℚ) : ℚ :=
  if water_gallons ≤ 3000 then 100
  else if water_gallons ≤ 5000 then 85
  else if water_gallons ≤ 8000 then 70
  else if water_gallons ≤ 12000 then 55
  else if water_gallons ≤ 15000 then 40
  else if water_gallons ≤ 20000 then 25
  else 10

/-- Electricity efficiency tier table of `assess_usage_with_ai` (`app.py`). -/
def electricity_efficiency (electricity_kwh : ℚ) : ℚ :=
  if electricity_kwh ≤ 300 then 100
  else if electricity_kwh ≤ 500 then 85
  else if electricity_kwh ≤ 800 then 70
  else if electricity_kwh ≤ 1200 then 55
  else if electricity_kwh ≤ 1600 then 40
  else if electricity_kwh ≤ 2000 then 25
  else 10

/-- Gas efficiency tier table of `assess_usage_with_ai` (`app.py`). -/
def gas_efficiency (gas_cubic_m : ℚ) : ℚ :=
  if gas_cubic_m ≤ 50 then 100
  else if gas_cubic_m ≤ 80 then 85
  else if gas_cubic_m ≤ 120 then 70
  else if gas_cubic_m ≤ 180 then 55
  else if gas_cubic_m ≤ 250 then 40
  else if gas_cubic_m ≤ 350 then 25
  else 10

/-- The composite line `efficiency_score = (water_efficiency +
electricity_efficiency + gas_efficiency) / 3` of `assess_usage_with_ai`. -/
def efficiency_score_raw (water_gallons electricity_kwh gas_cubic_m : ℚ) : ℚ :=
  (water_efficiency water_gallons + electricity_efficiency electricity_kwh +
    gas_efficiency gas_cubic_m) / 3

/-- The `status_base_scores` dict of `calculate_ai_points` (`app.py`),
as the association list it is written as. -/
def statusBaseTable : List (String × ℚ) :=
  [("Excellent", 3.33), ("Very Good", 2.80), ("Good", 2.30),
   ("Above Normal", 1.80), ("Normal", 1.50), ("Below Normal", 0.80),
   ("High", 0.50), ("Very High", 0.20), ("Critical", -0.50),
   ("Emergency", -1.00), ("Low", 0.60)]

/-- `status_base_scores.get(status, 1.50)` of `calculate_ai_points`. -/
def status_base_scores (status : String) : ℚ :=
  (statusBaseTable.lookup status).getD 1.50

/-- The efficiency-modifier step chain of `calculate_ai_points` (`app.py`). -/
def efficiency_modifier (efficiency_score : ℚ) : ℚ :=
  if efficiency_score ≥ 95 then 1.1
  else if efficiency_score ≥ 90 then 1.0
  else if efficiency_score ≥ 85 then 0.95
  else if efficiency_score ≥ 80 then 0.90
  else if efficiency_score ≥ 70 then 0.85
  else if efficiency_score ≥ 60 then 0.80
  else if efficiency_score ≥ 50 then 0.70
  else if efficiency_score ≥ 40 then 0.60
  else if efficiency_score ≥ 30 then 0.50
  else if efficiency_score ≥ 20 then 0.40
  else 0.30

/-- Outcome of `json.loads(user.energy_features)` in `calculate_ai_points`:
the attribute may be absent/falsy, fail to parse (any exception is swallowed
by the bare `except: pass`), or parse to a collection of `count` features. -/
inductive FeaturesData where
  | absent : FeaturesData
  | malformed : FeaturesData
  | parsed (count : ℕ) : FeaturesData
deriving DecidableEq

/-- The user attributes `calculate_ai_points` reads via `getattr`. -/
structure UserCtx where
  household_size : ℤ
  energy_features : FeaturesData
deriving DecidableEq

/-- The context-bonus block of `calculate_ai_points` (`app.py`): household
bonus `min(0.05*(household_size-1), 0.3)` for sizes above 1, plus feature
bonus `min(0.03*feature_count, 0.4)` when `energy_features` parses. -/
def context_bonus : Option UserCtx → ℚ
  | none => 0
  | some u =>
    (if u.household_size > 1 then
        min (0.05 * ((u.household_size : ℚ) - 1)) 0.3
      else 0) +
    (match u.energy_features with
      | .parsed count => min (0.03 * (count : ℚ)) 0.4
      | _ => 0)

/-- `calculate_ai_points` (`app.py`): base scores summed, efficiency
modifier applied multiplicatively, context bonus added, result clamped by
`min(10.0, max(-5.0, final_points))` and returned as `round(final_points, 2)`. -/
def calculate_ai_points (water_status electricity_status gas_status : String)
    (efficiency_score : ℚ) (user : Option UserCtx) : ℚ :=
  let total_utility_points :=
    status_base_scores water_status + status_base_scores electricity_status +
      status_base_scores gas_status
  let modified_points := total_utility_points * efficiency_modifier efficiency_score
  let final_points := modified_points + context_bonus user
  round2 (min 10 (max (-5) final_points))

/-- The `penalties` dict of the nested `validate_usage_values` in
`assess_usage_with_ai` (`app.py`). -/
structure Penalties where
  water : ℚ
  electricity : ℚ
  gas : ℚ
  overall : ℚ
deriving DecidableEq

/-- The nested `validate_usage_values` of `assess_usage_with_ai` (`app.py`):
a zero reading sets that utility's factor to 0.0 and appends a warning;
the overall factor is the mean of the three. -/
def validate_usage_values (water electricity gas : ℚ) : Penalties × List String :=
  let pw : ℚ := if water = 0 then 0 else 1
  let pe : ℚ := if electricity = 0 then 0 else 1
  let pg : ℚ := if gas = 0 then 0 else 1
  let warnings :=
    (if water = 0 then
        ["Water usage cannot be zero - please enter a valid amount"] else []) ++
    (if electricity = 0 then
        ["Electricity usage cannot be zero - please enter a valid amount"] else []) ++
    (if gas = 0 then
        ["Gas usage cannot be zero - please enter a valid amount"] else [])
  (⟨pw, pe, pg, (pw + pe + pg) / 3⟩, warnings)

/-- The fields of the dict returned by `assess_usage_with_ai` that this
development reasons about.  `ai_points_capped` is the value of the local
`ai_points` variable after the penalty multiplication and caps, i.e. just
before the dict applies `round(ai_points, 1)`. -/
structure AssessResult where
  water_status : String
  electricity_status : String
  gas_status : String
  efficiency_score : ℚ
  ai_points_capped : ℚ
  ai_points : ℚ
  validation_warnings : List String
  penalties : Penalties
deriving DecidableEq

/-- `assess_usage_with_ai` (`app.py`), untrained path (see file header):
status labels from `eco_ai.assess_usage_with_context`, tier-table efficiency,
penalty applied to the efficiency score, `calculate_ai_points` on the
penalized efficiency, penalty applied to the returned points, then the
`min(ai_points, 1.0 / 3.0 / 6.0)` caps by penalty band, and the dict's
roundings (`round(efficiency_score, 1)`, `round(ai_points, 1)`). -/
def assess_usage_with_ai (water_gallons electricity_kwh gas_cubic_m : ℚ)
    (user : Option UserCtx) : AssessResult :=
  let statuses := assess_usage_with_context water_gallons electricity_kwh gas_cubic_m
  let eff0 := efficiency_score_raw water_gallons electricity_kwh gas_cubic_m
  let pv := validate_usage_values water_gallons electricity_kwh gas_cubic_m
  let pen := pv.1
  let efficiency_score := eff0 * pen.overall
  let base_ai_points :=
    calculate_ai_points statuses.1 statuses.2.1 statuses.2.2 efficiency_score user
  let ai_points0 := base_ai_points * pen.overall
  let ai_points1 :=
    if pen.overall ≤ 0.2 then min ai_points0 1.0
    else if pen.overall ≤ 0.4 then min ai_points0 3.0
    else if pen.overall ≤ 0.7 then min ai_points0 6.0
    else ai_points0
  { water_status := statuses.1
    electricity_status := statuses.2.1
    gas_status := statuses.2.2
    efficiency_score := round1 efficiency_score
    ai_points_capped := ai_points1
    ai_points := round1 ai_points1
    validation_warnings := pv.2
    penalties := pen }

/-- The scoring order that the specification's words describe for zero
readings: the overall penalty multiplies the utility-point total (and the
efficiency score) BEFORE the efficiency-modifier, context-bonus, clamping
and rounding steps, with the caps applied afterwards.  Written here only to
be compared against the implemented `assess_usage_with_ai`. -/
def specOrderPoints (water_gallons electricity_kwh gas_cubic_m : ℚ)
    (user : Option UserCtx) : ℚ :=
  let statuses := assess_usage_with_context water_gallons electricity_kwh gas_cubic_m
  let pen := (validate_usage_values water_gallons electricity_kwh gas_cubic_m).1
  let efficiency_score :=
    efficiency_score_raw water_gallons electricity_kwh gas_cubic_m * pen.overall
  let total :=
    (status_base_scores statuses.1 + status_base_scores statuses.2.1 +
      status_base_scores statuses.2.2) * pen.overall
  let final :=
    round2 (min 10 (max (-5)
      (total * efficiency_modifier efficiency_score + context_bonus user)))
  if pen.overall ≤ 0.2 then min final 1.0
  else if pen.overall ≤ 0.4 then min final 3.0
  else if pen.overall ≤ 0.7 then min final 6.0
  else final

/-- The environmental class labels A/B/C. -/
inductive EnvironmentalClass where
  | A : EnvironmentalClass
  | B : EnvironmentalClass
  | C : EnvironmentalClass
deriving DecidableEq

/-- One stored utility reading, as consumed by the historical classifier. -/
structure UsageReading where
  water_gallons : ℚ
  electricity_kwh : ℚ
  gas_cubic_m : ℚ
deriving DecidableEq

/-- Modelled from the spec: `db.calculate_environmental_class` lives in the
database module, which is not under `src/` (only its callers in `app.py`
are).  Spec §4.3: compute the mean water/electricity/gas over the supplied
window; Class A when at least 2 of the 3 means fall below their
normal-range floor, Class C when at least 2 exceed their normal-range
ceiling, Class B otherwise; empty or single-reading windows return the
neutral Class B through an explicit branch.  Normal ranges per the spec and
the in-app help text: water 3000–12000, electricity 300–800, gas 50–150. -/
def calculate_environmental_class (readings : List UsageReading) : EnvironmentalClass :=
  if readings.length ≤ 1 then EnvironmentalClass.B
  else
    let n : ℚ := readings.length
    let mw := (readings.map (fun r => r.water_gallons)).sum / n
    let me := (readings.map (fun r => r.electricity_kwh)).sum / n
    let mg := (readings.map (fun r => r.gas_cubic_m)).sum / n
    let lowCount : ℕ :=
      (if mw < 3000 then 1 else 0) + (if me < 300 then 1 else 0) +
        (if mg < 50 then 1 else 0)
    let highCount : ℕ :=
      (if mw > 12000 then 1 else 0) + (if me > 800 then 1 else 0) +
        (if mg > 150 then 1 else 0)
    if lowCount ≥ 2 then EnvironmentalClass.A
    else if highCount ≥ 2 then EnvironmentalClass.C
    else EnvironmentalClass.B

/-! ## Helper lemmas -/

/-- Every label `_get_usage_status` can return is one of the four lowercase
tier names. -/
lemma get_usage_status_mem (utility : String) (value : ℚ) :
    get_usage_status utility value ∈
      (["excellent", "good", "moderate", "high"] : List String) := by
  simp only [get_usage_status]
  split_ifs <;> simp

/-- A label produced by `_get_usage_status` always falls back to the 1.50
default of `status_base_scores`. -/
lemma status_base_scores_of_status (utility : String) (value : ℚ) :
    status_base_scores (get_usage_status utility value) = 1.50 := by
  simp only [get_usage_status]
  split_ifs <;> simp [status_base_scores, statusBaseTable, List.lookup]

/-- `calculate_ai_points` applied to labels coming from the classifier: the
utility total is pinned at `3 * 1.50 = 4.50`. -/
lemma calculate_ai_points_of_statuses (w e g eff : ℚ) (user : Option UserCtx) :
    calculate_ai_points (get_usage_status "water" w) (get_usage_status "electricity" e)
        (get_usage_status "gas" g) eff user =
      round2 (min 10 (max (-5) (4.50 * efficiency_modifier eff + context_bonus user))) := by
  unfold calculate_ai_points
  rw [status_base_scores_of_status, status_base_scores_of_status,
    status_base_scores_of_status]
  norm_num

lemma round2_between {x : ℚ} (h1 : -5 ≤ x) (h2 : x ≤ 10) :
    -5 ≤ round2 x ∧ round2 x ≤ 10 := by
  unfold round2
  rw [round_eq]
  have h3 : ⌊x * 100 + 1 / 2⌋ < 1001 := by
    rw [Int.floor_lt]
    push_cast
    linarith
  have h4 : (-500 : ℤ) ≤ ⌊x * 100 + 1 / 2⌋ := by
    rw [Int.le_floor]
    push_cast
    linarith
  have h5 : ((⌊x * 100 + 1 / 2⌋ : ℤ) : ℚ) ≤ 1000 := by
    exact_mod_cast Int.lt_add_one_iff.mp h3
  have h6 : (-500 : ℚ) ≤ ((⌊x * 100 + 1 / 2⌋ : ℤ) : ℚ) := by exact_mod_cast h4
  constructor <;> linarith

lemma round1_between {x : ℚ} (h1 : -5 ≤ x) (h2 : x ≤ 10) :
    -5 ≤ round1 x ∧ round1 x ≤ 10 := by
  unfold round1
  rw [round_eq]
  have h3 : ⌊x * 10 + 1 / 2⌋ < 101 := by
    rw [Int.floor_lt]
    push_cast
    linarith
  have h4 : (-50 : ℤ) ≤ ⌊x * 10 + 1 / 2⌋ := by
    rw [Int.le_floor]
    push_cast
    linarith
  have h5 : ((⌊x * 10 + 1 / 2⌋ : ℤ) : ℚ) ≤ 100 := by
    exact_mod_cast Int.lt_add_one_iff.mp h3
  have h6 : (-50 : ℚ) ≤ ((⌊x * 10 + 1 / 2⌋ : ℤ) : ℚ) := by exact_mod_cast h4
  constructor <;> linarith

lemma clamp_between (y : ℚ) :
    -5 ≤ min 10 (max (-5) y) ∧ min 10 (max (-5) y) ≤ 10 :=
  ⟨le_min (by norm_num) (le_max_left _ _), min_le_left _ _⟩

/-- The scorer's output is always inside the clamp range, whatever the
labels, efficiency and context are. -/
lemma calculate_ai_points_between (s1 s2 s3 : String) (eff : ℚ) (user : Option UserCtx) :
    -5 ≤ calculate_ai_points s1 s2 s3 eff user ∧
      calculate_ai_points s1 s2 s3 eff user ≤ 10 := by
  unfold calculate_ai_points
  exact round2_between (clamp_between _).1 (clamp_between _).2

lemma overall_penalty_between (w e g : ℚ) :
    0 ≤ (validate_usage_values w e g).1.overall ∧
      (validate_usage_values w e g).1.overall ≤ 1 := by
  unfold validate_usage_values
  dsimp only
  split_ifs <;> norm_num

lemma mul_penalty_between {b p : ℚ} (hb1 : -5 ≤ b) (hb2 : b ≤ 10)
    (hp1 : 0 ≤ p) (hp2 : p ≤ 1) : -5 ≤ b * p ∧ b * p ≤ 10 := by
  constructor <;> nlinarith

/-- The capped, penalty-multiplied point total of the assessment stays in
the clamp range. -/
lemma ai_points_capped_between (w e g : ℚ) (user : Option UserCtx) :
    -5 ≤ (assess_usage_with_ai w e g user).ai_points_capped ∧
      (assess_usage_with_ai w e g user).ai_points_capped ≤ 10 := by
  have hb := calculate_ai_points_between (assess_usage_with_context w e g).1
    (assess_usage_with_context w e g).2.1 (assess_usage_with_context w e g).2.2
    (efficiency_score_raw w e g * (validate_usage_values w e g).1.overall) user
  have hp := overall_penalty_between w e g
  have hm := mul_penalty_between hb.1 hb.2 hp.1 hp.2
  simp only [assess_usage_with_ai]
  split_ifs
  · exact ⟨le_min hm.1 (by norm_num), le_trans (min_le_left _ _) hm.2⟩
  · exact ⟨le_min hm.1 (by norm_num), le_trans (min_le_left _ _) hm.2⟩
  · exact ⟨le_min hm.1 (by norm_num), le_trans (min_le_left _ _) hm.2⟩
  · exact hm

lemma water_efficiency_between (v : ℚ) :
    10 ≤ water_efficiency v ∧ water_efficiency v ≤ 100 := by
  unfold water_efficiency
  split_ifs <;> norm_num

lemma electricity_efficiency_between (v : ℚ) :
    10 ≤ electricity_efficiency v ∧ electricity_efficiency v ≤ 100 := by
  unfold electricity_efficiency
  split_ifs <;> norm_num

lemma gas_efficiency_between (v : ℚ) :
    10 ≤ gas_efficiency v ∧ gas_efficiency v ≤ 100 := by
  unfold gas_efficiency
  split_ifs <;> norm_num

lemma water_efficiency_anti {v v' : ℚ} (h : v ≤ v') :
    water_efficiency v' ≤ water_efficiency v := by
  unfold water_efficiency
  split_ifs <;> linarith

lemma electricity_efficiency_anti {v v' : ℚ} (h : v ≤ v') :
    electricity_efficiency v' ≤ electricity_efficiency v := by
  unfold electricity_efficiency
  split_ifs <;> linarith

lemma gas_efficiency_anti {v v' : ℚ} (h : v ≤ v') :
    gas_efficiency v' ≤ gas_efficiency v := by
  unfold gas_efficiency
  split_ifs <;> linarith


/-- Lookup facts for the four lowercase labels and the capitalized keys this
development evaluates concretely. -/
lemma sbs_high : status_base_scores "high" = 1.50 := by
  simp [status_base_scores, statusBaseTable, List.lookup]

lemma sbs_good : status_base_scores "good" = 1.50 := by
  simp [status_base_scores, statusBaseTable, List.lookup]

lemma sbs_excellent_lower : status_base_scores "excellent" = 1.50 := by
  simp [status_base_scores, statusBaseTable, List.lookup]

lemma sbs_Excellent_cap : status_base_scores "Excellent" = 3.33 := by
  simp [status_base_scores, statusBaseTable, List.lookup]
  try norm_num

/-- Field-projection equations of the embedded `assess_usage_with_ai`. -/
lemma assess_water_status_eq (w e g : ℚ) (user : Option UserCtx) :
    (assess_usage_with_ai w e g user).water_status = get_usage_status "water" w := rfl

lemma assess_electricity_status_eq (w e g : ℚ) (user : Option UserCtx) :
    (assess_usage_with_ai w e g user).electricity_status =
      get_usage_status "electricity" e := rfl

lemma assess_gas_status_eq (w e g : ℚ) (user : Option UserCtx) :
    (assess_usage_with_ai w e g user).gas_status = get_usage_status "gas" g := rfl

lemma assess_efficiency_score_eq (w e g : ℚ) (user : Option UserCtx) :
    (assess_usage_with_ai w e g user).efficiency_score =
      round1 (efficiency_score_raw w e g * (validate_usage_values w e g).1.overall) := rfl

lemma assess_penalties_eq (w e g : ℚ) (user : Option UserCtx) :
    (assess_usage_with_ai w e g user).penalties = (validate_usage_values w e g).1 := rfl

lemma assess_warnings_eq (w e g : ℚ) (user : Option UserCtx) :
    (assess_usage_with_ai w e g user).validation_warnings =
      (validate_usage_values w e g).2 := rfl

lemma assess_ai_points_eq (w e g : ℚ) (user : Option UserCtx) :
    (assess_usage_with_ai w e g user).ai_points =
      round1 ((assess_usage_with_ai w e g user).ai_points_capped) := rfl

/-- The capped point total of `assess_usage_with_ai`, with the let-bindings
of the definition expanded. -/
lemma assess_ai_points_capped_eq (w e g : ℚ) (user : Option UserCtx) :
    (assess_usage_with_ai w e g user).ai_points_capped =
      (if (validate_usage_values w e g).1.overall ≤ 0.2 then
        min (calculate_ai_points (get_usage_status "water" w)
            (get_usage_status "electricity" e) (get_usage_status "gas" g)
            (efficiency_score_raw w e g * (validate_usage_values w e g).1.overall) user *
          (validate_usage_values w e g).1.overall) 1.0
      else if (validate_usage_values w e g).1.overall ≤ 0.4 then
        min (calculate_ai_points (get_usage_status "water" w)
            (get_usage_status "electricity" e) (get_usage_status "gas" g)
            (efficiency_score_raw w e g * (validate_usage_values w e g).1.overall) user *
          (validate_usage_values w e g).1.overall) 3.0
      else if (validate_usage_values w e g).1.overall ≤ 0.7 then
        min (calculate_ai_points (get_usage_status "water" w)
            (get_usage_status "electricity" e) (get_usage_status "gas" g)
            (efficiency_score_raw w e g * (validate_usage_values w e g).1.overall) user *
          (validate_usage_values w e g).1.overall) 6.0
      else
        calculate_ai_points (get_usage_status "water" w)
            (get_usage_status "electricity" e) (get_usage_status "gas" g)
            (efficiency_score_raw w e g * (validate_usage_values w e g).1.overall) user *
          (validate_usage_values w e g).1.overall) := rfl

/-- The capped point total at the reading (0, 500, 100) for a household of
five with no feature payload: 67/30 ≈ 2.2333. -/
lemma assess_zero_household_capped :
    (assess_usage_with_ai 0 500 100
        (some ⟨5, FeaturesData.absent⟩)).ai_points_capped = 67 / 30 := by
  have hov : (validate_usage_values 0 500 100).1.overall = 2 / 3 := by
    norm_num [validate_usage_values]
  have heff : efficiency_score_raw 0 500 100 = 85 := by
    norm_num [efficiency_score_raw, water_efficiency, electricity_efficiency,
      gas_efficiency]
  rw [assess_ai_points_capped_eq, hov, heff, calculate_ai_points_of_statuses]
  norm_num [efficiency_modifier, context_bonus, round2, round_eq, min_def, max_def]

/-! ## Claims -/

/-- C1 (counterexample): for the reading (5000, 500, 100) with no user
context, the water status returned by the assessment is the lowercase
`"high"` produced by `EcoAI._get_usage_status` (5000 exceeds its 150
threshold), not `"Very Good"` as the claim states. -/
theorem c1_counterexample :
    (assess_usage_with_ai 5000 500 100 none).water_status = "high" ∧
      ("high" : String) ≠ "Very Good" := by
  exact ⟨rfl, by decide⟩

/-- C1 (amended): for the reading (5000, 500, 100) with no user context and
no stored history, the assessment returns water status `"high"`,
electricity status `"good"`, gas status `"good"`, a composite efficiency
score of (85+85+70)/3 = 80, an overall validation penalty of 1, and a point
value of 4.05 before the final 1-decimal display rounding: each lowercase
label misses the `status_base_scores` table and receives the 1.50 default
(total 4.50), which is multiplied by the 0.90 efficiency modifier for
efficiency 80. -/
theorem c1_actual_assessment :
    (assess_usage_with_ai 5000 500 100 none).water_status = "high" ∧
    (assess_usage_with_ai 5000 500 100 none).electricity_status = "good" ∧
    (assess_usage_with_ai 5000 500 100 none).gas_status = "good" ∧
    efficiency_score_raw 5000 500 100 = (85 + 85 + 70) / 3 ∧
    (assess_usage_with_ai 5000 500 100 none).efficiency_score = 80 ∧
    (assess_usage_with_ai 5000 500 100 none).penalties.overall = 1 ∧
    status_base_scores "high" + status_base_scores "good" + status_base_scores "good" =
      4.50 ∧
    efficiency_modifier 80 = 0.90 ∧
    calculate_ai_points "high" "good" "good" 80 none = 4.05 ∧
    (assess_usage_with_ai 5000 500 100 none).ai_points_capped = 4.05 := by
  have hov : (validate_usage_values 5000 500 100).1.overall = 1 := by
    norm_num [validate_usage_values]
  have heff : efficiency_score_raw 5000 500 100 = 80 := by
    norm_num [efficiency_score_raw, water_efficiency, electricity_efficiency,
      gas_efficiency]
  refine ⟨rfl, rfl, rfl, by rw [heff]; norm_num, ?_, ?_, ?_, ?_, ?_, ?_⟩
  · rw [assess_efficiency_score_eq, hov, heff]
    norm_num [round1, round_eq]
  · rw [assess_penalties_eq]
    exact hov
  · rw [sbs_high, sbs_good]
    norm_num
  · norm_num [efficiency_modifier]
  · simp only [calculate_ai_points]
    rw [sbs_high, sbs_good]
    norm_num [efficiency_modifier, context_bonus, round2, round_eq, min_def, max_def]
  · rw [assess_ai_points_capped_eq, hov, heff, calculate_ai_points_of_statuses]
    norm_num [efficiency_modifier, context_bonus, round2, round_eq, min_def, max_def]

/-- C2: the labels handed to `calculate_ai_points` by the classifier are
always drawn from the lowercase set, none of those is a key of the
`status_base_scores` table, so each utility gets the 1.50 default, the
utility total is exactly 4.50 for every reading, and the scorer's output
does not depend on which reading produced the labels (only on the
efficiency score and user context). -/
theorem c2_lowercase_statuses_default_base :
    (∀ (utility : String) (value : ℚ),
        get_usage_status utility value ∈
          (["excellent", "good", "moderate", "high"] : List String)) ∧
    (∀ s ∈ (["excellent", "good", "moderate", "high"] : List String),
        statusBaseTable.lookup s = none ∧ status_base_scores s = 1.50) ∧
    (∀ w e g : ℚ,
        status_base_scores (get_usage_status "water" w) +
            status_base_scores (get_usage_status "electricity" e) +
            status_base_scores (get_usage_status "gas" g) = 4.50) ∧
    (∀ (w e g w' e' g' eff : ℚ) (user : Option UserCtx),
        calculate_ai_points (get_usage_status "water" w)
            (get_usage_status "electricity" e) (get_usage_status "gas" g) eff user =
          calculate_ai_points (get_usage_status "water" w')
            (get_usage_status "electricity" e') (get_usage_status "gas" g') eff user) := by
  refine ⟨get_usage_status_mem, ?_, ?_, ?_⟩
  · intro s hs
    fin_cases hs <;>
      exact ⟨by simp [statusBaseTable, List.lookup],
        by simp [status_base_scores, statusBaseTable, List.lookup]⟩
  · intro w e g
    rw [status_base_scores_of_status, status_base_scores_of_status,
      status_base_scores_of_status]
    norm_num
  · intro w e g w' e' g' eff user
    rw [calculate_ai_points_of_statuses, calculate_ai_points_of_statuses]

/-- C2 witness: the theorem applied at the concrete label "excellent". -/
theorem c2_witness :
    statusBaseTable.lookup "excellent" = none ∧ status_base_scores "excellent" = 1.50 :=
  c2_lowercase_statuses_default_base.2.1 "excellent" (by simp)

/-- C3 (counterexample): a reading of water=3000 is not classified
"Excellent" by the code: the returned status label comes from
`EcoAI._get_usage_status`, whose water thresholds are 50/100/150, so the
label is `"high"`. -/
theorem c3_counterexample :
    get_usage_status "water" 3000 = "high" ∧
      (assess_usage_with_ai 3000 500 100 none).water_status = "high" ∧
      ("high" : String) ≠ "Excellent" := by
  exact ⟨rfl, rfl, by decide⟩

/-- C3 (amended): the per-utility efficiency sub-score tables have
boundaries inclusive on the lower (≤) side — water=3000 scores 100 and
water=3001 scores 85, and analogously at every electricity breakpoint
(300/500/800/1200/1600/2000) and gas breakpoint (50/80/120/180/250/350) —
but the status label is assigned from EcoAI's separate 50/100/150-style
thresholds, so water=3000 is labeled "high" rather than "Excellent". -/
theorem c3_tier_boundaries :
    water_efficiency 3000 = 100 ∧ water_efficiency 3001 = 85 ∧
    water_efficiency 5000 = 85 ∧ water_efficiency 5001 = 70 ∧
    water_efficiency 8000 = 70 ∧ water_efficiency 8001 = 55 ∧
    water_efficiency 12000 = 55 ∧ water_efficiency 12001 = 40 ∧
    water_efficiency 15000 = 40 ∧ water_efficiency 15001 = 25 ∧
    water_efficiency 20000 = 25 ∧ water_efficiency 20001 = 10 ∧
    electricity_efficiency 300 = 100 ∧ electricity_efficiency 301 = 85 ∧
    electricity_efficiency 500 = 85 ∧ electricity_efficiency 501 = 70 ∧
    electricity_efficiency 800 = 70 ∧ electricity_efficiency 801 = 55 ∧
    electricity_efficiency 1200 = 55 ∧ electricity_efficiency 1201 = 40 ∧
    electricity_efficiency 1600 = 40 ∧ electricity_efficiency 1601 = 25 ∧
    electricity_efficiency 2000 = 25 ∧ electricity_efficiency 2001 = 10 ∧
    gas_efficiency 50 = 100 ∧ gas_efficiency 51 = 85 ∧
    gas_efficiency 80 = 85 ∧ gas_efficiency 81 = 70 ∧
    gas_efficiency 120 = 70 ∧ gas_efficiency 121 = 55 ∧
    gas_efficiency 180 = 55 ∧ gas_efficiency 181 = 40 ∧
    gas_efficiency 250 = 40 ∧ gas_efficiency 251 = 25 ∧
    gas_efficiency 350 = 25 ∧ gas_efficiency 351 = 10 ∧
    get_usage_status "water" 3000 = "high" := by
  norm_num [water_efficiency, electricity_efficiency, gas_efficiency,
    get_usage_status, efficiency_thresholds]

/-- C4 (counterexample): at the reading (0, 500, 100) for a household of
five, the implemented order (penalty applied to the points AFTER the
modifier, bonus, clamp and round steps) yields 67/30 ≈ 2.2333, while the
order the claim describes (penalty applied to the points BEFORE those
steps) would yield 2.3; the two differ. -/
theorem c4_counterexample :
    (assess_usage_with_ai 0 500 100
        (some ⟨5, FeaturesData.absent⟩)).ai_points_capped = 67 / 30 ∧
    specOrderPoints 0 500 100 (some ⟨5, FeaturesData.absent⟩) = 2.3 ∧
    (67 / 30 : ℚ) ≠ 2.3 := by
  refine ⟨assess_zero_household_capped, ?_, by norm_num⟩
  have hov : (validate_usage_values 0 500 100).1.overall = 2 / 3 := by
    norm_num [validate_usage_values]
  have heff : efficiency_score_raw 0 500 100 = 85 := by
    norm_num [efficiency_score_raw, water_efficiency, electricity_efficiency,
      gas_efficiency]
  simp only [specOrderPoints, assess_usage_with_context, hov, heff]
  rw [status_base_scores_of_status, status_base_scores_of_status,
    status_base_scores_of_status]
  norm_num [efficiency_modifier, context_bonus, round2, round_eq, min_def, max_def]

/-- C4 (amended): when a reading contains a zero, the overall validation
penalty multiplies the efficiency score before the efficiency-modifier step
(the modifier is evaluated at the penalized efficiency), but it multiplies
the points only AFTER steps 2–5 of the scoring algorithm — after the
modifier, the context bonus, the clamp to [-5, 10] and the 2-decimal
rounding have all been applied inside `calculate_ai_points` — and the
banded caps (1.0 / 3.0 / 6.0) are applied last, outside everything. -/
theorem c4_actual_penalty_order (w e g : ℚ) (user : Option UserCtx) :
    (assess_usage_with_ai w e g user).efficiency_score =
      round1 (efficiency_score_raw w e g * (validate_usage_values w e g).1.overall) ∧
    (assess_usage_with_ai w e g user).ai_points_capped =
      (if (validate_usage_values w e g).1.overall ≤ 0.2 then
        min (round2 (min 10 (max (-5)
            (4.50 * efficiency_modifier
                (efficiency_score_raw w e g * (validate_usage_values w e g).1.overall) +
              context_bonus user))) *
          (validate_usage_values w e g).1.overall) 1.0
      else if (validate_usage_values w e g).1.overall ≤ 0.4 then
        min (round2 (min 10 (max (-5)
            (4.50 * efficiency_modifier
                (efficiency_score_raw w e g * (validate_usage_values w e g).1.overall) +
              context_bonus user))) *
          (validate_usage_values w e g).1.overall) 3.0
      else if (validate_usage_values w e g).1.overall ≤ 0.7 then
        min (round2 (min 10 (max (-5)
            (4.50 * efficiency_modifier
                (efficiency_score_raw w e g * (validate_usage_values w e g).1.overall) +
              context_bonus user))) *
          (validate_usage_values w e g).1.overall) 6.0
      else
        round2 (min 10 (max (-5)
            (4.50 * efficiency_modifier
                (efficiency_score_raw w e g * (validate_usage_values w e g).1.overall) +
              context_bonus user))) *
          (validate_usage_values w e g).1.overall) := by
  refine ⟨rfl, ?_⟩
  rw [assess_ai_points_capped_eq]
  simp only [calculate_ai_points_of_statuses]

/-- C5 (counterexample): at the reading (0, 500, 100) for a household of
five, the capped point total is 67/30 ≈ 2.2333; the assessment returns it
rounded to ONE decimal place (2.2), not to two (2.23), so the award the
caller receives is not the 2-decimal rounding the claim describes. -/
theorem c5_counterexample :
    (assess_usage_with_ai 0 500 100 (some ⟨5, FeaturesData.absent⟩)).ai_points = 2.2 ∧
    round2 ((assess_usage_with_ai 0 500 100
        (some ⟨5, FeaturesData.absent⟩)).ai_points_capped) = 2.23 ∧
    (2.2 : ℚ) ≠ 2.23 := by
  refine ⟨?_, ?_, by norm_num⟩
  · rw [assess_ai_points_eq, assess_zero_household_capped]
    norm_num [round1, round_eq]
  · rw [assess_zero_household_capped]
    norm_num [round2, round_eq]

/-- C5 (amended): `calculate_ai_points` returns a value clamped to
[-5, 10] and rounded to 2 decimals (an integer number of hundredths); the
assessment then multiplies it by the validation penalty, applies the caps,
and returns the result rounded to ONE decimal place (an integer number of
tenths), still within [-5, 10]. -/
theorem c5_award_clamped_rounded :
    (∀ (s1 s2 s3 : String) (eff : ℚ) (user : Option UserCtx),
        -5 ≤ calculate_ai_points s1 s2 s3 eff user ∧
        calculate_ai_points s1 s2 s3 eff user ≤ 10 ∧
        ∃ k : ℤ, calculate_ai_points s1 s2 s3 eff user = k / 100) ∧
    (∀ (w e g : ℚ) (user : Option UserCtx),
        (assess_usage_with_ai w e g user).ai_points =
          round1 ((assess_usage_with_ai w e g user).ai_points_capped) ∧
        -5 ≤ (assess_usage_with_ai w e g user).ai_points ∧
        (assess_usage_with_ai w e g user).ai_points ≤ 10 ∧
        ∃ k : ℤ, (assess_usage_with_ai w e g user).ai_points = k / 10) := by
  constructor
  · intro s1 s2 s3 eff user
    refine ⟨(calculate_ai_points_between s1 s2 s3 eff user).1,
      (calculate_ai_points_between s1 s2 s3 eff user).2, ?_⟩
    exact ⟨round (min 10 (max (-5)
      ((status_base_scores s1 + status_base_scores s2 + status_base_scores s3) *
          efficiency_modifier eff + context_bonus user)) * 100), rfl⟩
  · intro w e g user
    have hc := ai_points_capped_between w e g user
    have hr := round1_between hc.1 hc.2
    exact ⟨rfl, by rw [assess_ai_points_eq]; exact hr.1,
      by rw [assess_ai_points_eq]; exact hr.2,
      ⟨round ((assess_usage_with_ai w e g user).ai_points_capped * 10), rfl⟩⟩

/-- C6: for every combination of status labels, every efficiency score in
[0, 100] and any user context, the scorer's output lies in [-5, 10]; in
particular, for three "Excellent" labels, efficiency 100, household size 5
and 12 parsed green-energy features the raw value 3×3.33×1.1+0.2+0.36
exceeds the ceiling and the output is clamped to exactly 10. -/
theorem c6_output_bounded (s1 s2 s3 : String) (eff : ℚ) (user : Option UserCtx)
    (h1 : 0 ≤ eff) (h2 : eff ≤ 100) :
    (-5 ≤ calculate_ai_points s1 s2 s3 eff user ∧
      calculate_ai_points s1 s2 s3 eff user ≤ 10) ∧
    calculate_ai_points "Excellent" "Excellent" "Excellent" 100
      (some ⟨5, FeaturesData.parsed 12⟩) = 10 := by
  refine ⟨calculate_ai_points_between s1 s2 s3 eff user, ?_⟩
  simp only [calculate_ai_points]
  rw [sbs_Excellent_cap]
  norm_num [efficiency_modifier, context_bonus, round2, round_eq, min_def, max_def]

/-- C6 witness: the theorem applied at the claim's own example input. -/
theorem c6_witness :
    (0 : ℚ) ≤ 100 ∧ (100 : ℚ) ≤ 100 ∧
    (-5 ≤ calculate_ai_points "Excellent" "Excellent" "Excellent" 100
        (some ⟨5, FeaturesData.parsed 12⟩) ∧
      calculate_ai_points "Excellent" "Excellent" "Excellent" 100
        (some ⟨5, FeaturesData.parsed 12⟩) ≤ 10) :=
  ⟨by norm_num, by norm_num,
    (c6_output_bounded "Excellent" "Excellent" "Excellent" 100
      (some ⟨5, FeaturesData.parsed 12⟩) (by norm_num) (by norm_num)).1⟩

/-- C7: a zero reading is a soft condition: for (water=0, electricity=500,
gas=100) the validator sets the water penalty factor to 0 with exactly one
warning (for the affected utility), the overall penalty is (0+1+1)/3 = 2/3,
the assessment still returns a result, and — because 0.4 < 2/3 ≤ 0.7 — its
point total goes through the `min(·, 6.0)` cap, coming out at 2.1 ≤ 6. -/
theorem c7_zero_reading_soft :
    (validate_usage_values 0 500 100).1.water = 0 ∧
    (validate_usage_values 0 500 100).1.electricity = 1 ∧
    (validate_usage_values 0 500 100).1.gas = 1 ∧
    (validate_usage_values 0 500 100).1.overall = (0 + 1 + 1) / 3 ∧
    (validate_usage_values 0 500 100).2 =
      ["Water usage cannot be zero - please enter a valid amount"] ∧
    ¬((validate_usage_values 0 500 100).1.overall ≤ 0.4) ∧
    (validate_usage_values 0 500 100).1.overall ≤ 0.7 ∧
    (assess_usage_with_ai 0 500 100 none).ai_points_capped = 2.1 ∧
    (assess_usage_with_ai 0 500 100 none).ai_points_capped ≤ 6.0 := by
  have hov : (validate_usage_values 0 500 100).1.overall = 2 / 3 := by
    norm_num [validate_usage_values]
  have heff : efficiency_score_raw 0 500 100 = 85 := by
    norm_num [efficiency_score_raw, water_efficiency, electricity_efficiency,
      gas_efficiency]
  have hcap : (assess_usage_with_ai 0 500 100 none).ai_points_capped = 2.1 := by
    rw [assess_ai_points_capped_eq, hov, heff, calculate_ai_points_of_statuses]
    norm_num [efficiency_modifier, context_bonus, round2, round_eq, min_def, max_def]
  refine ⟨by norm_num [validate_usage_values], by norm_num [validate_usage_values],
    by norm_num [validate_usage_values], by rw [hov]; norm_num,
    by norm_num [validate_usage_values], by rw [hov]; norm_num,
    by rw [hov]; norm_num, hcap, by rw [hcap]; norm_num⟩

/-- C8: for positive readings (non-negative with no zeros) the composite
efficiency score from the tier tables lies in [10, 100] and is
non-increasing in each utility value separately. -/
theorem c8_efficiency_bounded_monotone (w e g : ℚ)
    (hw : 0 < w) (he : 0 < e) (hg : 0 < g) :
    10 ≤ efficiency_score_raw w e g ∧ efficiency_score_raw w e g ≤ 100 ∧
    (∀ w', w ≤ w' → efficiency_score_raw w' e g ≤ efficiency_score_raw w e g) ∧
    (∀ e', e ≤ e' → efficiency_score_raw w e' g ≤ efficiency_score_raw w e g) ∧
    (∀ g', g ≤ g' → efficiency_score_raw w e g' ≤ efficiency_score_raw w e g) := by
  have hwb := water_efficiency_between w
  have heb := electricity_efficiency_between e
  have hgb := gas_efficiency_between g
  refine ⟨?_, ?_, ?_, ?_, ?_⟩
  · unfold efficiency_score_raw
    linarith [hwb.1, heb.1, hgb.1]
  · unfold efficiency_score_raw
    linarith [hwb.2, heb.2, hgb.2]
  · intro w' hww
    have := water_efficiency_anti hww
    unfold efficiency_score_raw
    linarith
  · intro e' hee
    have := electricity_efficiency_anti hee
    unfold efficiency_score_raw
    linarith
  · intro g' hgg
    have := gas_efficiency_anti hgg
    unfold efficiency_score_raw
    linarith

/-- C8 witness: the theorem applied at the reading (1, 1, 1), with the
monotonicity conjunct instantiated at water 1 ≤ 2. -/
theorem c8_witness :
    (0 : ℚ) < 1 ∧ 10 ≤ efficiency_score_raw 1 1 1 ∧
      efficiency_score_raw 2 1 1 ≤ efficiency_score_raw 1 1 1 :=
  ⟨by norm_num,
    (c8_efficiency_bounded_monotone 1 1 1 (by norm_num) (by norm_num) (by norm_num)).1,
    (c8_efficiency_bounded_monotone 1 1 1 (by norm_num) (by norm_num)
      (by norm_num)).2.2.1 2 (by norm_num)⟩

/-- C9: an unparseable `energy_features` payload behaves exactly like an
absent one: the feature bonus it contributes is zero, the scorer's result
is unchanged, and (the embedding being total, mirroring the bare
`except: pass`) no error reaches the caller. -/
theorem c9_malformed_features_ignored :
    ∀ (s1 s2 s3 : String) (eff : ℚ) (household : ℤ),
      calculate_ai_points s1 s2 s3 eff
          (some ⟨household, FeaturesData.malformed⟩) =
        calculate_ai_points s1 s2 s3 eff (some ⟨household, FeaturesData.absent⟩) ∧
      context_bonus (some ⟨household, FeaturesData.malformed⟩) =
        context_bonus (some ⟨household, FeaturesData.absent⟩) ∧
      context_bonus (some ⟨1, FeaturesData.malformed⟩) = 0 := by
  intro s1 s2 s3 eff household
  refine ⟨rfl, rfl, by norm_num [context_bonus]⟩

/-- C10: the historical classifier returns the neutral Class B for an empty
window (and for a single-reading window), through its explicit short
window branch, and — being a total function — never fails. -/
theorem c10_empty_history_class_B :
    calculate_environmental_class [] = EnvironmentalClass.B ∧
      ∀ r : UsageReading, calculate_environmental_class [r] = EnvironmentalClass.B :=
  ⟨rfl, fun _ => rfl⟩
